import Mathlib

/-!
Shallow embedding of the asset classification and extraction engine of
RoExtract-ru (src/src/logic.rs and src/src/logic/sql_database.rs).

Byte buffers are `List Nat`; header strings stay `String` (all headers are
ASCII, so `Char.toNat` of each character equals its UTF-8 byte).
-/

set_option maxRecDepth 40000

namespace RoExtract

/-! ### The signature catalog and the classification engine (logic.rs) -/

/-- The six asset categories, in source declaration order (`Category` in
logic.rs; the derived `EnumIter` iterates in this order). -/
inductive Category
  | Music
  | Sounds
  | Images
  | Ktx
  | Rbxm
  | All
deriving DecidableEq, Repr

/-- The list produced by `Category::iter()` (strum `EnumIter`): declaration
order. -/
def categoryIter : List Category :=
  [Category.Music, Category.Sounds, Category.Images, Category.Ktx,
   Category.Rbxm, Category.All]

/-- ASCII bytes of a header string (`str::as_bytes` for ASCII data). -/
def strBytes (s : String) : List Nat :=
  s.data.map Char.toNat

/-- Core of `bytes_search` (logic.rs): first index at which `needle` occurs
as a contiguous sublist of the remaining haystack.  Mirrors
`haystack.windows(len).position(|w| w == needle)`: a window at position `i`
equals `needle` exactly when `needle = haystack.drop i |>.take needle.length`
(for nonempty `needle`). -/
def searchList (needle : List Nat) : List Nat → Option Nat
  | [] => none
  | h :: t =>
    if needle = (h :: t).take needle.length then some 0
    else (searchList needle t).map (· + 1)

/-- `bytes_search(haystack, needle)` from logic.rs: `None` for an empty
needle, else the earliest match position. -/
def bytes_search (haystack needle : List Nat) : Option Nat :=
  if 0 < needle.length then searchList needle haystack else none

/-- `bytes_contains(haystack, needle)` from logic.rs: `windows(len).any`
for a nonempty needle, `false` otherwise; equivalently, the search finds
some position. -/
def bytes_contains (haystack needle : List Nat) : Bool :=
  (bytes_search haystack needle).isSome

/-- Header lists of the five concrete categories (the non-`All` arms of
`get_headers` in logic.rs); `[]` for `All`, whose arm is built below. -/
def concreteHeaders : Category → List String
  | Category.Music => ["OggS", "ID3"]
  | Category.Sounds => ["OggS", "ID3"]
  | Category.Ktx => ["KTX"]
  | Category.Rbxm => ["<roblox!"]
  | Category.Images => ["PNG", "WEBP"]
  | Category.All => []

/-- `get_headers` from logic.rs.  The `All` arm of the source recursively
flat-maps `get_headers` over every non-`All` category and drops empty
strings; since every category passed there is concrete, that recursion is
unfolded here through `concreteHeaders`; the equality with the recursive
formulation over `get_headers` itself is proved in the theorems below. -/
def get_headers (category : Category) : List String :=
  match category with
  | Category.All =>
    ((categoryIter.filter (fun cat => cat ≠ Category.All)).flatMap
        concreteHeaders).filter (fun item => !item.isEmpty)
  | c => concreteHeaders c

/-- `find_header(category, bytes)` from logic.rs: first header (in catalog
order) contained in the bytes, or the error string. -/
def find_header (category : Category) (bytes : List Nat) :
    Except String String :=
  match (get_headers category).find?
      (fun header => bytes_contains bytes (strBytes header)) with
  | some header => Except.ok header
  | none => Except.error "Headers not found in bytes"

/-- The signature-specific backward offset of `extract_bytes` in logic.rs. -/
def header_offset (header : String) : Nat :=
  match header with
  | "PNG" => 1
  | "KTX" => 1
  | "WEBP" => 8
  | _ => 0

/-- `extract_bytes(header, bytes)` from logic.rs.  When the header is found
at index `i`, the source computes `index -= offset` on a `usize` and slices
`bytes[index..]`; when `i < offset` that call panics (debug: subtraction
overflow; release: the wrapped index is far beyond the buffer length, so the
range indexing panics), modelled as `none`.  When the header is not found,
the input bytes are returned unchanged. -/
def extract_bytes (header : String) (bytes : List Nat) :
    Option (List Nat) :=
  match bytes_search bytes (strBytes header) with
  | some index =>
    if header_offset header ≤ index then
      some (bytes.drop (index - header_offset header))
    else
      none
  | none => some bytes

/-- `determine_category(bytes)` from logic.rs: scan every category except
`All` and `Music` in iterator order; inside a category scan its headers in
order; an `"ID3"` header additionally requires the substring `binary/`. -/
def determine_category (bytes : List Nat) : Category :=
  match (categoryIter.filter
      (fun cat => cat ≠ Category.All ∧ cat ≠ Category.Music)).findSome?
      (fun cat => (get_headers cat).findSome? (fun header =>
        if header = "ID3" then
          if bytes_contains bytes (strBytes header) &&
              bytes_contains bytes (strBytes "binary/") then
            some cat
          else
            none
        else
          if bytes_contains bytes (strBytes header) then some cat
          else none)) with
  | some cat => cat
  | none => Category.All

/-- A buffer whose WEBP marker first occurs at byte offset 100. -/
def webpAt100 : List Nat := List.replicate 100 0 ++ strBytes "WEBP"

/-! ### Asset descriptors, the read pipeline, and the extraction engine -/

/-- `AssetInfo` from logic.rs (`_size` renamed `size`; `last_modified`
modelled as an optional abstract timestamp). -/
structure AssetInfo where
  name : String
  size : Nat
  last_modified : Option Nat
  from_file : Bool
  from_sql : Bool
  category : Category
deriving DecidableEq, Repr

/-- The `std::io::ErrorKind` values this code constructs or propagates. -/
inductive ErrKind
  | InvalidInput
  | Other
deriving DecidableEq, Repr

/-- A `std::io::Error`: a kind plus its message. -/
structure IOError where
  kind : ErrKind
  msg : String
deriving DecidableEq, Repr

/-- The error `read_asset` builds for a descriptor tied to neither
backend. -/
def notFromEitherError : IOError :=
  ⟨ErrKind.InvalidInput, "Not from_file or from_sql"⟩

/-- The Zstandard magic number checked by `read_asset`. -/
def zstd_magic : List Nat := [0x28, 0xB5, 0x2F, 0xFD]

/-- A backend read function (`cache_directory::read_asset` or
`sql_database::read_asset`): collaborators of logic.rs, passed in
explicitly. -/
abbrev ReadFn := AssetInfo → Except IOError (List Nat)

/-- A zstd decoder (`zstd::stream::decode_all`, an external library):
`none` models a decode error. -/
abbrev DecodeFn := List Nat → Option (List Nat)

/-- The raw-bytes fetch at the top of `read_asset` in logic.rs: route by
`from_file` / `from_sql`, else fail with `InvalidInput`. -/
def fetch_raw (fileRead sqlRead : ReadFn) (asset : AssetInfo) :
    Except IOError (List Nat) :=
  if asset.from_file then fileRead asset
  else if asset.from_sql then sqlRead asset
  else Except.error notFromEitherError

/-- `read_asset` from logic.rs: fetch raw bytes, then, when the first four
bytes are the Zstandard magic number, attempt decompression; a successful
decode returns the decompressed buffer, a failed decode returns the raw
bytes; without the magic number the raw bytes are returned unchanged. -/
def read_asset (fileRead sqlRead : ReadFn) (decode : DecodeFn)
    (asset : AssetInfo) : Except IOError (List Nat) :=
  match fetch_raw fileRead sqlRead asset with
  | Except.error e => Except.error e
  | Except.ok raw_bytes =>
    if 4 ≤ raw_bytes.length ∧ raw_bytes.take 4 = zstd_magic then
      match decode raw_bytes with
      | some decompressed => Except.ok decompressed
      | none => Except.ok raw_bytes
    else
      Except.ok raw_bytes

/-- The header-to-extension table inlined in `extract_to_file`
(logic.rs). -/
def extension_for (header : String) : String :=
  match header with
  | "OggS" => "ogg"
  | "ID3" => "mp3"
  | "PNG" => "png"
  | "WEBP" => "webp"
  | "KTX" => "ktx"
  | "<roblox!" => "rbxm"
  | _ => "ogg"

/-- `extract_to_file` from logic.rs, with the filesystem write kept as data:
on success the result carries the (possibly extension-adjusted) destination
and the bytes written there.  `setExt` models `PathBuf::set_extension`
(an external collaborator).  A write error is only logged by the source, so
it does not appear in the result; a `read_asset` failure propagates (the
`?`); an `extract_bytes` panic propagates as the outer `none`. -/
def extract_to_file (fileRead sqlRead : ReadFn) (decode : DecodeFn)
    (setExt : String → String → String) (asset : AssetInfo)
    (destination : String) (add_extension : Bool) :
    Option (Except IOError (String × List Nat)) :=
  match read_asset fileRead sqlRead decode asset with
  | Except.error e => some (Except.error e)
  | Except.ok bytes =>
    match find_header asset.category bytes with
    | Except.ok header =>
      let dest :=
        if add_extension then setExt destination (extension_for header)
        else destination
      (extract_bytes header bytes).map
        (fun extracted => Except.ok (dest, extracted))
    | Except.error _ => some (Except.ok (destination, bytes))

/-- `extract_asset_to_bytes` from logic.rs; the outer `none` models an
`extract_bytes` panic. -/
def extract_asset_to_bytes (fileRead sqlRead : ReadFn) (decode : DecodeFn)
    (asset : AssetInfo) : Option (Except IOError (List Nat)) :=
  match read_asset fileRead sqlRead decode asset with
  | Except.error e => some (Except.error e)
  | Except.ok bytes =>
    match find_header asset.category bytes with
    | Except.ok header => (extract_bytes header bytes).map Except.ok
    | Except.error _ => some (Except.ok bytes)

/-- `create_no_files` from logic.rs; the name comes from the locale
collaborator, so it is a parameter. -/
def create_no_files (noFilesName : String) : AssetInfo :=
  ⟨noFilesName, 0, none, false, false, Category.All⟩

/-- A backend `create_asset_info` lookup (`sql_database::create_asset_info`
or `cache_directory::create_asset_info`). -/
abbrev LookupFn := String → Category → Option AssetInfo

/-- `create_asset_info` from logic.rs: try the SQL backend, then the cache
directory, else synthesize a descriptor tied to neither backend. -/
def create_asset_info (sqlInfo cacheInfo : LookupFn) (asset : String)
    (category : Category) : AssetInfo :=
  match sqlInfo asset category with
  | some info => info
  | none =>
    match cacheInfo asset category with
    | some info => info
    | none => ⟨asset, 0, none, false, false, category⟩

/-! ### The index and task coordinator (the global mutable state of
logic.rs) and the extraction batch operations.

The shared mutexed globals (`FILE_LIST`, `FILTERED_FILE_LIST`, `STATUS`,
`PROGRESS`, `REQUEST_REPAINT`, `TASK_RUNNING`) become an explicit state
record, and each operation becomes a state transformer that also reports
its filesystem operations as data.  Spawned worker threads that the source
can join (`yield_for_thread`) run to completion here, so an operation's
transformer covers the whole worker body. -/

/-- The shared mutable engine state owned by logic.rs.  `progress` is an
`f32` in the source, written only via `update_progress`; it is modelled as
a rational (no claim inspects a rounded value). -/
structure EngineState where
  file_list : List AssetInfo
  filtered_file_list : List AssetInfo
  status : String
  progress : Rat
  task_running : Bool
  request_repaint : Bool
deriving DecidableEq, Repr

/-- A filesystem side effect of the extraction path. -/
inductive FsOp
  | createDirAll (dest : String)
  | writeFile (path : String) (bytes : List Nat)
  | setFileTimes (path : String)
deriving DecidableEq, Repr

/-- The collaborators `extract_dir` / `extract_all` call out to: backend
readers, the zstd decoder, path manipulation, the config store
(`refresh_before_extract`, `get_asset_alias`), the locale message lookup
(`msg` for argument-free messages, `msgArgs` for the item/total ones), and
`refresh` (logic.rs `refresh` joined to completion, whose own body runs the
listing machinery and backends; it is kept abstract here because the claims
below never reach it). -/
structure Env where
  fileRead : ReadFn
  sqlRead : ReadFn
  decode : DecodeFn
  setExt : String → String → String
  joinPath : String → String → String
  refresh_before_extract : Bool
  get_asset_alias : String → String
  msg : String → String
  msgArgs : String → Nat → Nat → String
  refreshFn : Category → EngineState → EngineState

/-- The per-entry loop of `extract_dir` (logic.rs): bump the counter,
report progress, resolve the alias, extract to the joined destination, and
report status whether the file succeeded or failed (the source updates the
same status message in both arms and merely logs the error).  An
`extract_bytes` panic (`none` from `extract_to_file`) kills the worker
thread, modelled as an overall `none`. -/
def extract_dir_loop (env : Env) (destination : String) (use_alias : Bool)
    (total : Nat) :
    List AssetInfo → Nat → EngineState → List FsOp →
      Option (EngineState × List FsOp)
  | [], _, s, ops => some (s, ops)
  | entry :: rest, count, s, ops =>
    let count1 := count + 1
    let s1 := { s with progress := (count1 : Rat) / (total : Rat),
                       request_repaint := true }
    let aliasName := if use_alias then env.get_asset_alias entry.name
                     else entry.name
    let dest := env.joinPath destination aliasName
    match extract_to_file env.fileRead env.sqlRead env.decode env.setExt
        entry dest true with
    | none => none
    | some (Except.ok (d, written)) =>
      let s2 := { s1 with status := env.msgArgs "extracting-files" count1
                            total,
                          request_repaint := true }
      let tops := match entry.last_modified with
        | some _ => [FsOp.setFileTimes d]
        | none => []
      extract_dir_loop env destination use_alias total rest count1 s2
        (ops ++ [FsOp.writeFile d written] ++ tops)
    | some (Except.error _) =>
      let s2 := { s1 with status := env.msgArgs "extracting-files" count1
                            total,
                          request_repaint := true }
      extract_dir_loop env destination use_alias total rest count1 s2 ops

/-- `extract_dir` from logic.rs: it issues `fs::create_dir_all(destination)`
first, then reads `TASK_RUNNING`; when a mutating task is already flagged
the body is skipped (the directory creation has already happened).
Otherwise the worker sets the flag, optionally refreshes, walks the file
list writing each extracted asset, clears the flag and sets the final
status. -/
def extract_dir (env : Env) (destination : String) (category : Category)
    (use_alias : Bool) (s : EngineState) :
    Option (EngineState × List FsOp) :=
  let ops0 : List FsOp := [FsOp.createDirAll destination]
  if s.task_running then some (s, ops0)
  else
    let s1 := { s with task_running := true }
    let s2 := if env.refresh_before_extract then env.refreshFn category s1
              else s1
    let file_list := s2.file_list
    let total := file_list.length
    match extract_dir_loop env destination use_alias total file_list 0 s2
        ops0 with
    | none => none
    | some (s3, ops) =>
      some ({ s3 with task_running := false,
                      status := env.msg "all-extracted",
                      request_repaint := true }, ops)

/-- `extract_all` from logic.rs: when no mutating task is flagged, its
worker sets `TASK_RUNNING`, calls `extract_dir` for `Music` and then for
`All`, clears the flag and sets the final status. -/
def extract_all (env : Env) (destination : String) (use_alias : Bool)
    (s : EngineState) : Option (EngineState × List FsOp) :=
  if s.task_running then some (s, [])
  else
    let s1 := { s with task_running := true }
    match extract_dir env destination Category.Music use_alias s1 with
    | none => none
    | some (s2, ops1) =>
      match extract_dir env destination Category.All use_alias s2 with
      | none => none
      | some (s3, ops2) =>
        some ({ s3 with task_running := false,
                        status := env.msg "all-extracted",
                        request_repaint := true }, ops1 ++ ops2)

/-- A concrete collaborator environment for witnesses: backends hold an
OggS asset, zstd decode fails, paths join with a slash, locale lookup is
the identity on keys. -/
def testEnv : Env where
  fileRead := fun _ => Except.ok (strBytes "OggS data")
  sqlRead := fun _ => Except.ok (strBytes "OggS data")
  decode := fun _ => none
  setExt := fun d e => d ++ "." ++ e
  joinPath := fun d n => d ++ "/" ++ n
  refresh_before_extract := false
  get_asset_alias := fun n => n
  msg := fun k => k
  msgArgs := fun k _ _ => k
  refreshFn := fun _ s => s

/-- A state in which a mutating task is already flagged running, with a
nonempty index. -/
def busyState : EngineState where
  file_list := [⟨"asset1", 9, some 0, true, false, Category.Music⟩]
  filtered_file_list := []
  status := "idling"
  progress := 1
  task_running := true
  request_repaint := false

/-- An idle state (no mutating task flagged), with one SQL-backed Music
asset in the index. -/
def idleState : EngineState where
  file_list := [⟨"00ab", 9, some 0, false, true, Category.Music⟩]
  filtered_file_list := []
  status := "idling"
  progress := 1
  task_running := false
  request_repaint := false

/-! ### The database backend (src/src/logic/sql_database.rs)

The `files` table is an association list from row id (a byte string) to
content; `query_row("SELECT content ... WHERE id = ?")` is the first row
with that id, `execute("UPDATE files SET content ...")` rewrites every row
with that id.  A rusqlite transaction applies its statements to a working
version that replaces the stored database only at `commit`; dropping the
transaction on an early error rolls everything back. -/

abbrev Db := List (List Nat × List Nat)

/-- One hex digit, as `hex::decode` accepts (both cases). -/
def hexDigit (c : Char) : Option Nat :=
  if '0' ≤ c ∧ c ≤ '9' then some (c.toNat - '0'.toNat)
  else if 'a' ≤ c ∧ c ≤ 'f' then some (c.toNat - 'a'.toNat + 10)
  else if 'A' ≤ c ∧ c ≤ 'F' then some (c.toNat - 'A'.toNat + 10)
  else none

/-- `hex::decode` pairing: fails on an odd-length tail or a bad digit. -/
def hexPairs : List Char → Option (List Nat)
  | [] => some []
  | [_] => none
  | c1 :: c2 :: rest =>
    match hexDigit c1, hexDigit c2, hexPairs rest with
    | some hi, some lo, some tail => some ((16 * hi + lo) :: tail)
    | _, _, _ => none

/-- `hex::decode` on an asset name. -/
def hex_decode (s : String) : Option (List Nat) :=
  hexPairs s.data

/-- `SELECT content FROM files WHERE id = ?1` via `query_row`: content of
the first row with this id, `none` when no row matches
(`QueryReturnedNoRows`). -/
def db_query (db : Db) (id : List Nat) : Option (List Nat) :=
  (db.find? (fun row => row.1 = id)).map (fun row => row.2)

/-- `UPDATE files SET content = ?1 WHERE id = ?2`: rewrite the content of
every row with this id. -/
def db_update (db : Db) (id content : List Nat) : Db :=
  db.map (fun row => if row.1 = id then (row.1, content) else row)

/-- The rusqlite error shapes `swap_assets` can produce. -/
inductive SqlError
  | FromSqlConversionFailure
  | QueryReturnedNoRows
  | InvalidQuery
deriving DecidableEq, Repr

/-- `swap_assets` from sql_database.rs: decode both hex ids, open a
transaction, read both contents, write each content to the other row,
commit.  The returned pair is the stored database after the call and the
call's result; every failure before the commit leaves the stored database
untouched (transaction rollback). -/
def swap_assets (conn : Option Db) (asset_a asset_b : AssetInfo) :
    Option Db × Except SqlError Unit :=
  match conn with
  | none => (none, Except.error SqlError.InvalidQuery)
  | some db =>
    match hex_decode asset_a.name with
    | none => (some db, Except.error SqlError.FromSqlConversionFailure)
    | some id_a =>
      match hex_decode asset_b.name with
      | none => (some db, Except.error SqlError.FromSqlConversionFailure)
      | some id_b =>
        match db_query db id_a with
        | none => (some db, Except.error SqlError.QueryReturnedNoRows)
        | some content_a =>
          match db_query db id_b with
          | none => (some db, Except.error SqlError.QueryReturnedNoRows)
          | some content_b =>
            (some (db_update (db_update db id_a content_b) id_b content_a),
              Except.ok ())

/-- A two-row database for the swap witness: row `ab` holds `[1, 2]`, row
`cd` holds `[3]`. -/
def db0 : Db := [([171], [1, 2]), ([205], [3])]

/-- SQL-backed descriptor with hex id `ab`. -/
def dbAssetA : AssetInfo := ⟨"ab", 2, none, false, true, Category.All⟩

/-- SQL-backed descriptor with hex id `cd`. -/
def dbAssetB : AssetInfo := ⟨"cd", 1, none, false, true, Category.All⟩

/-! ### Properties of the byte search -/

theorem searchList_some_occurs {needle h : List Nat} {i : Nat}
    (hs : searchList needle h = some i) :
    needle = (h.drop i).take needle.length := by
  induction h generalizing i with
  | nil => simp [searchList] at hs
  | cons x t ih =>
    rw [searchList] at hs
    split at hs
    · rename_i hcond
      cases hs
      simpa using hcond
    · rcases Option.map_eq_some'.mp hs with ⟨j, hj, rfl⟩
      rw [List.drop_succ_cons]
      exact ih hj

theorem searchList_some_min {needle h : List Nat} {i : Nat}
    (hs : searchList needle h = some i) :
    ∀ j < i, needle ≠ (h.drop j).take needle.length := by
  induction h generalizing i with
  | nil => simp [searchList] at hs
  | cons x t ih =>
    rw [searchList] at hs
    split at hs
    · cases hs
      intro j hj
      omega
    · rename_i hcond
      rcases Option.map_eq_some'.mp hs with ⟨k, hk, rfl⟩
      intro j hj
      cases j with
      | zero => simpa using hcond
      | succ j =>
        rw [List.drop_succ_cons]
        exact ih hk j (by omega)

theorem searchList_of_occurs_min {needle h : List Nat} {i : Nat}
    (hne : needle ≠ [])
    (hocc : needle = (h.drop i).take needle.length)
    (hmin : ∀ j < i, needle ≠ (h.drop j).take needle.length) :
    searchList needle h = some i := by
  induction h generalizing i with
  | nil =>
    exfalso
    apply hne
    simpa using hocc
  | cons x t ih =>
    cases i with
    | zero =>
      rw [searchList, if_pos (by simpa using hocc)]
    | succ i =>
      rw [searchList, if_neg (by simpa using hmin 0 (Nat.succ_pos i))]
      have ht : searchList needle t = some i := by
        apply ih
        · simpa [List.drop_succ_cons] using hocc
        · intro j hj
          simpa [List.drop_succ_cons] using hmin (j + 1) (by omega)
      rw [ht]
      rfl

theorem bytes_search_some_parts {haystack needle : List Nat} {i : Nat}
    (hs : bytes_search haystack needle = some i) :
    0 < needle.length ∧ searchList needle haystack = some i := by
  rw [bytes_search] at hs
  split at hs
  · exact ⟨by assumption, hs⟩
  · cases hs

/-! ### Claim theorems on the signature catalog and the slicing engine -/

/-- C2 (counterexample): the claim says no byte pattern occurs more than
once in `get_headers(All)`, but `"OggS"` occurs twice (Music and Sounds both
list it, and the `All` arm concatenates without deduplication). -/
theorem get_headers_all_dup_counterexample :
    (get_headers Category.All).count "OggS" = 2 ∧
    (get_headers Category.All) =
      ["OggS", "ID3", "OggS", "ID3", "PNG", "WEBP", "KTX", "<roblox!"] := by
  decide

/-- C2 (amended): `get_headers(All)` is the plain concatenation of
`get_headers` over every concrete category in declaration order, excluding
empty patterns, without deduplication; the patterns shared by Music and
Sounds appear twice. -/
theorem get_headers_all_concat :
    get_headers Category.All =
      ((categoryIter.filter (fun cat => cat ≠ Category.All)).flatMap
          get_headers).filter (fun item => !item.isEmpty) ∧
    get_headers Category.All =
      get_headers Category.Music ++ get_headers Category.Sounds ++
        get_headers Category.Images ++ get_headers Category.Ktx ++
        get_headers Category.Rbxm ∧
    (get_headers Category.All).count "OggS" = 2 ∧
    (get_headers Category.All).count "ID3" = 2 := by
  refine ⟨rfl, by decide, by decide, by decide⟩

/-- C4 (counterexample): for a buffer whose WEBP marker occurs at offset 0
(less than the backward offset 8), `extract_bytes` does not return the
claimed slice — the unchecked subtraction panics (modelled as `none`). -/
theorem extract_bytes_webp_counterexample :
    bytes_search (strBytes "WEBP") (strBytes "WEBP") = some 0 ∧
    extract_bytes "WEBP" (strBytes "WEBP") = none := by
  decide

/-- C4 (amended): whenever the matched signature's earliest byte offset `i`
is at least the signature-specific backward offset (PNG: 1, KTX: 1, WEBP: 8,
others: 0), `extract_bytes` returns the slice from `i` minus that offset to
the end of the buffer; in particular, for a WEBP marker first occurring at
offset 100 it returns the slice starting at offset 92. -/
theorem extract_bytes_slice_correct (header : String) (bytes : List Nat)
    (i : Nat) (hs : bytes_search bytes (strBytes header) = some i)
    (hoff : header_offset header ≤ i) :
    extract_bytes header bytes =
      some (bytes.drop (i - header_offset header)) := by
  simp only [extract_bytes, hs]
  rw [if_pos hoff]

/-- Witness for `extract_bytes_slice_correct`: the WEBP-at-offset-100 buffer
yields the slice starting at offset 92. -/
theorem extract_bytes_slice_correct_witness :
    bytes_search webpAt100 (strBytes "WEBP") = some 100 ∧
    extract_bytes "WEBP" webpAt100 = some (webpAt100.drop 92) := by
  refine ⟨by decide, ?_⟩
  exact extract_bytes_slice_correct "WEBP" webpAt100 100 (by decide)
    (by decide)

/-- C9: whenever the matched signature's earliest occurrence lies at an
offset strictly less than the signature's backward offset, `extract_bytes`
returns no bytes at all: the unchecked `index -= offset` subtraction makes
the call panic (modelled as `none`) instead of returning a slice or the
input unchanged. -/
theorem extract_bytes_underflow_panics (header : String) (bytes : List Nat)
    (i : Nat) (hs : bytes_search bytes (strBytes header) = some i)
    (hlt : i < header_offset header) :
    extract_bytes header bytes = none := by
  simp only [extract_bytes, hs]
  rw [if_neg (by omega)]

/-- Witness for `extract_bytes_underflow_panics`: a KTX marker at offset 0
(backward offset 1) panics. -/
theorem extract_bytes_underflow_panics_witness :
    bytes_search (strBytes "KTX") (strBytes "KTX") = some 0 ∧
    (0 : Nat) < header_offset "KTX" ∧
    extract_bytes "KTX" (strBytes "KTX") = none := by
  refine ⟨by decide, by decide, ?_⟩
  exact extract_bytes_underflow_panics "KTX" (strBytes "KTX") 0 (by decide)
    (by decide)

/-- C7: `extract_bytes` is idempotent on its own output: whenever a first
application returns bytes (it did not panic), applying it again to that
output returns the output unchanged. -/
theorem extract_bytes_idem (header : String) (bytes out : List Nat)
    (h : extract_bytes header bytes = some out) :
    extract_bytes header out = some out := by
  rw [extract_bytes] at h
  cases hsearch : bytes_search bytes (strBytes header) with
  | none =>
    rw [hsearch] at h
    cases h
    rw [extract_bytes, hsearch]
  | some i =>
    rw [hsearch] at h
    simp only at h
    by_cases hoff : header_offset header ≤ i
    · rw [if_pos hoff] at h
      cases h
      rcases bytes_search_some_parts hsearch with ⟨hlen, hsl⟩
      have hne : strBytes header ≠ [] := List.length_pos.mp hlen
      set n : List Nat := strBytes header with hn
      set off : Nat := header_offset header with hoffdef
      have hdrop : ∀ j : Nat,
          (bytes.drop (i - off)).drop j = bytes.drop ((i - off) + j) := by
        intro j
        rw [List.drop_drop]
      have hocc : n = ((bytes.drop (i - off)).drop off).take n.length := by
        rw [hdrop, Nat.sub_add_cancel hoff]
        exact searchList_some_occurs hsl
      have hmin : ∀ j < off,
          n ≠ ((bytes.drop (i - off)).drop j).take n.length := by
        intro j hj
        rw [hdrop]
        exact searchList_some_min hsl ((i - off) + j) (by omega)
      have hsl2 : searchList n (bytes.drop (i - off)) = some off :=
        searchList_of_occurs_min hne hocc hmin
      have hbs : bytes_search (bytes.drop (i - off)) n = some off := by
        rw [bytes_search, if_pos hlen]
        exact hsl2
      simp only [extract_bytes, hbs]
      rw [← hoffdef, if_pos (Nat.le_refl off), Nat.sub_self, List.drop_zero]
    · rw [if_neg hoff] at h
      cases h

/-- Witness for `extract_bytes_idem`: one application on a buffer with a
leading junk byte trims it; a second application is the identity. -/
theorem extract_bytes_idem_witness :
    extract_bytes "ID3" (strBytes "qID3yz") = some (strBytes "ID3yz") ∧
    extract_bytes "ID3" (strBytes "ID3yz") = some (strBytes "ID3yz") := by
  refine ⟨by decide, ?_⟩
  exact extract_bytes_idem "ID3" (strBytes "qID3yz") (strBytes "ID3yz")
    (by decide)

/-- C5 (counterexample): a buffer containing the ID3 marker and no
`binary/` substring need not map to `All` — if it also contains another
catalog marker (here `OggS`), `determine_category` returns that marker's
category, here `Sounds`, a sound category. -/
theorem determine_category_id3_counterexample :
    bytes_contains (strBytes "ID3OggS") (strBytes "ID3") = true ∧
    bytes_contains (strBytes "ID3OggS") (strBytes "binary/") = false ∧
    determine_category (strBytes "ID3OggS") = Category.Sounds := by
  decide

/-- C5 (amended): for every buffer that contains the ID3 marker but neither
the substring `binary/` nor any other catalog marker (OggS, PNG, WEBP, KTX,
`<roblox!`), `determine_category` returns `All`: the ID3 match alone is
rejected without the `binary/` confirmation. -/
theorem determine_category_id3_only_returns_all (bytes : List Nat)
    (hid3 : bytes_contains bytes (strBytes "ID3") = true)
    (hbin : bytes_contains bytes (strBytes "binary/") = false)
    (hoggs : bytes_contains bytes (strBytes "OggS") = false)
    (hpng : bytes_contains bytes (strBytes "PNG") = false)
    (hwebp : bytes_contains bytes (strBytes "WEBP") = false)
    (hktx : bytes_contains bytes (strBytes "KTX") = false)
    (hrbxm : bytes_contains bytes (strBytes "<roblox!") = false) :
    determine_category bytes = Category.All := by
  simp [determine_category, categoryIter, get_headers, concreteHeaders,
    List.findSome?, hid3, hbin, hoggs, hpng, hwebp, hktx, hrbxm]

/-- Witness for `determine_category_id3_only_returns_all`: the buffer
`"xID3x"` contains only the ID3 marker and no `binary/`. -/
theorem determine_category_id3_only_returns_all_witness :
    determine_category (strBytes "xID3x") = Category.All := by
  exact determine_category_id3_only_returns_all (strBytes "xID3x")
    (by decide) (by decide) (by decide) (by decide) (by decide) (by decide)
    (by decide)

/-- C6: whenever the raw fetch succeeds with bytes `r`, `read_asset` returns
`r` unchanged both when the zstd decode fails (best effort, never a hard
failure) and when the first four bytes are not the Zstandard magic number
(including buffers shorter than four bytes). -/
theorem read_asset_best_effort (fileRead sqlRead : ReadFn)
    (decode : DecodeFn) (asset : AssetInfo) (r : List Nat)
    (hfetch : fetch_raw fileRead sqlRead asset = Except.ok r) :
    (decode r = none →
      read_asset fileRead sqlRead decode asset = Except.ok r) ∧
    (¬(4 ≤ r.length ∧ r.take 4 = zstd_magic) →
      read_asset fileRead sqlRead decode asset = Except.ok r) := by
  constructor
  · intro hdec
    rw [read_asset, hfetch]
    by_cases hmagic : 4 ≤ r.length ∧ r.take 4 = zstd_magic
    · simp only [if_pos hmagic, hdec]
    · simp only [if_neg hmagic]
  · intro hmagic
    rw [read_asset, hfetch]
    simp only [if_neg hmagic]

/-- Witness for `read_asset_best_effort`: a buffer that starts with the
Zstandard magic number whose decode fails is returned unchanged, and a
short buffer without the magic number is returned unchanged. -/
theorem read_asset_best_effort_witness :
    read_asset (fun _ => Except.ok (zstd_magic ++ [5]))
        (fun _ => Except.error ⟨ErrKind.Other, "no SQL"⟩) (fun _ => none)
        ⟨"a", 5, none, true, false, Category.All⟩ =
      Except.ok (zstd_magic ++ [5]) ∧
    read_asset (fun _ => Except.ok [1, 2])
        (fun _ => Except.error ⟨ErrKind.Other, "no SQL"⟩) (fun _ => none)
        ⟨"a", 2, none, true, false, Category.All⟩ =
      Except.ok [1, 2] := by
  constructor
  · exact (read_asset_best_effort (fun _ => Except.ok (zstd_magic ++ [5]))
      (fun _ => Except.error ⟨ErrKind.Other, "no SQL"⟩) (fun _ => none)
      ⟨"a", 5, none, true, false, Category.All⟩ (zstd_magic ++ [5])
      (by rfl)).1 (by rfl)
  · exact (read_asset_best_effort (fun _ => Except.ok [1, 2])
      (fun _ => Except.error ⟨ErrKind.Other, "no SQL"⟩) (fun _ => none)
      ⟨"a", 2, none, true, false, Category.All⟩ [1, 2] (by rfl)).2
      (by decide)

/-- C10: a descriptor with both backend flags clear makes `read_asset`
return the `InvalidInput` error, so `extract_asset_to_bytes` and
`extract_to_file` fail with that error rather than producing bytes; the
"no files" placeholder and the fallback descriptor `create_asset_info`
builds when the identifier exists in neither backend are such
descriptors. -/
theorem read_asset_invalid_input (fileRead sqlRead : ReadFn)
    (decode : DecodeFn) (setExt : String → String → String)
    (asset : AssetInfo) (destination : String) (add_extension : Bool)
    (sqlInfo cacheInfo : LookupFn) (id : String) (cat : Category)
    (noFilesName : String)
    (hf : asset.from_file = false) (hs : asset.from_sql = false)
    (hsql : sqlInfo id cat = none) (hcache : cacheInfo id cat = none) :
    read_asset fileRead sqlRead decode asset =
      Except.error notFromEitherError ∧
    extract_asset_to_bytes fileRead sqlRead decode asset =
      some (Except.error notFromEitherError) ∧
    extract_to_file fileRead sqlRead decode setExt asset destination
        add_extension = some (Except.error notFromEitherError) ∧
    (create_no_files noFilesName).from_file = false ∧
    (create_no_files noFilesName).from_sql = false ∧
    (create_asset_info sqlInfo cacheInfo id cat).from_file = false ∧
    (create_asset_info sqlInfo cacheInfo id cat).from_sql = false := by
  have hread : read_asset fileRead sqlRead decode asset =
      Except.error notFromEitherError := by
    rw [read_asset, fetch_raw, hf, hs]
    rfl
  refine ⟨hread, ?_, ?_, rfl, rfl, ?_, ?_⟩
  · rw [extract_asset_to_bytes, hread]
  · rw [extract_to_file, hread]
  · rw [create_asset_info, hsql, hcache]
  · rw [create_asset_info, hsql, hcache]

/-- Witness for `read_asset_invalid_input`: the "no files" placeholder
descriptor fails every read/extract with `InvalidInput`, and an identifier
unknown to both backends yields a descriptor with both flags clear. -/
theorem read_asset_invalid_input_witness :
    read_asset (fun _ => Except.ok []) (fun _ => Except.ok [])
        (fun _ => none) (create_no_files "no files") =
      Except.error notFromEitherError ∧
    extract_asset_to_bytes (fun _ => Except.ok []) (fun _ => Except.ok [])
        (fun _ => none) (create_no_files "no files") =
      some (Except.error notFromEitherError) ∧
    extract_to_file (fun _ => Except.ok []) (fun _ => Except.ok [])
        (fun _ => none) (fun d _ => d) (create_no_files "no files") "out"
        true = some (Except.error notFromEitherError) ∧
    (create_no_files "no files").from_file = false ∧
    (create_no_files "no files").from_sql = false ∧
    (create_asset_info (fun _ _ => none) (fun _ _ => none) "ab"
        Category.All).from_file = false ∧
    (create_asset_info (fun _ _ => none) (fun _ _ => none) "ab"
        Category.All).from_sql = false :=
  read_asset_invalid_input (fun _ => Except.ok []) (fun _ => Except.ok [])
    (fun _ => none) (fun d _ => d) (create_no_files "no files") "out" true
    (fun _ _ => none) (fun _ _ => none) "ab" Category.All "no files"
    rfl rfl rfl rfl

/-- Shared helper: `extract_dir` with the mutating flag already set returns
the state unchanged and performs only the unconditional
`create_dir_all(destination)` that precedes the flag check. -/
theorem extract_dir_flag_set (env : Env) (destination : String)
    (category : Category) (use_alias : Bool) (s : EngineState)
    (h : s.task_running = true) :
    extract_dir env destination category use_alias s =
      some (s, [FsOp.createDirAll destination]) := by
  simp [extract_dir, h]

/-- C3 (counterexample): with the mutating flag already set, `extract_dir`
still issues `fs::create_dir_all(destination)` — the directory creation
precedes the flag check — so "creates no file and no directory" is false;
the state (index, filtered index, status, progress) is unchanged. -/
theorem extract_dir_busy_counterexample :
    busyState.task_running = true ∧
    extract_dir testEnv "out" Category.All false busyState =
      some (busyState, [FsOp.createDirAll "out"]) ∧
    ([FsOp.createDirAll "out"] : List FsOp) ≠ [] := by
  refine ⟨rfl, rfl, by decide⟩

/-- C3 (amended): whenever the mutating flag is already set, `extract_dir`
writes no file and leaves the shared index, the filtered index, the status
string, the progress value and the flag itself unchanged; its only
filesystem action is the unconditional `create_dir_all(destination)` issued
before the flag check. -/
theorem extract_dir_busy_no_op (env : Env) (destination : String)
    (category : Category) (use_alias : Bool) (s : EngineState)
    (h : s.task_running = true) :
    extract_dir env destination category use_alias s =
      some (s, [FsOp.createDirAll destination]) ∧
    ∀ path bytes,
      FsOp.writeFile path bytes ∉ [FsOp.createDirAll destination] := by
  refine ⟨extract_dir_flag_set env destination category use_alias s h, ?_⟩
  intro path bytes
  simp

/-- Witness for `extract_dir_busy_no_op` at a concrete busy state. -/
theorem extract_dir_busy_no_op_witness :
    busyState.task_running = true ∧
    (extract_dir testEnv "o" Category.Music true busyState =
        some (busyState, [FsOp.createDirAll "o"]) ∧
      ∀ path bytes,
        FsOp.writeFile path bytes ∉ [FsOp.createDirAll "o"]) :=
  ⟨rfl, extract_dir_busy_no_op testEnv "o" Category.Music true busyState
    rfl⟩

/-- C1: `extract_all`'s worker sets the mutating flag and then calls
`extract_dir` for `Music` and for `All`; since `extract_dir` skips its
whole body whenever that flag is set, both passes no-op.  Starting from any
idle state, `extract_all` writes no asset file at all: its only filesystem
actions are the two unconditional `create_dir_all(destination)` calls, and
it still reports the all-extracted status. -/
theorem extract_all_writes_no_files (env : Env) (destination : String)
    (use_alias : Bool) (s : EngineState) (h : s.task_running = false) :
    extract_all env destination use_alias s =
      some ({ s with status := env.msg "all-extracted",
                     request_repaint := true, task_running := false },
        [FsOp.createDirAll destination, FsOp.createDirAll destination]) ∧
    ∀ path bytes,
      FsOp.writeFile path bytes ∉
        [FsOp.createDirAll destination, FsOp.createDirAll destination] := by
  constructor
  · have h1 := extract_dir_flag_set env destination Category.Music
      use_alias { s with task_running := true } rfl
    have h2 := extract_dir_flag_set env destination Category.All
      use_alias { s with task_running := true } rfl
    simp [extract_all, h, h1, h2]
  · intro path bytes
    simp

/-- Witness for `extract_all_writes_no_files`: an idle state whose index
holds a Music asset the backends can read still produces no file write. -/
theorem extract_all_writes_no_files_witness :
    idleState.task_running = false ∧
    (extract_all testEnv "out" true idleState =
        some ({ idleState with status := testEnv.msg "all-extracted",
                               request_repaint := true,
                               task_running := false },
          [FsOp.createDirAll "out", FsOp.createDirAll "out"]) ∧
      ∀ path bytes,
        FsOp.writeFile path bytes ∉
          [FsOp.createDirAll "out", FsOp.createDirAll "out"]) :=
  ⟨rfl, extract_all_writes_no_files testEnv "out" true idleState rfl⟩

theorem db_query_cons (row : List Nat × List Nat) (t : Db)
    (id : List Nat) :
    db_query (row :: t) id =
      if row.1 = id then some row.2 else db_query t id := by
  by_cases h : row.1 = id <;> simp [db_query, List.find?_cons, h]

theorem db_update_cons (row : List Nat × List Nat) (t : Db)
    (id content : List Nat) :
    db_update (row :: t) id content =
      (if row.1 = id then (row.1, content) else row) :: db_update t id
        content := rfl

theorem db_query_update_self (db : Db) (id content : List Nat) :
    db_query (db_update db id content) id =
      (db_query db id).map (fun _ => content) := by
  induction db with
  | nil => rfl
  | cons row t ih =>
    rw [db_update_cons, db_query_cons, db_query_cons]
    by_cases h : row.1 = id
    · simp [h]
    · simp [h, ih]

theorem db_query_update_other (db : Db) (id id' content : List Nat)
    (h : id' ≠ id) :
    db_query (db_update db id content) id' = db_query db id' := by
  induction db with
  | nil => rfl
  | cons row t ih =>
    rw [db_update_cons, db_query_cons, db_query_cons]
    by_cases hrow : row.1 = id
    · have hne : ¬row.1 = id' := by
        rw [hrow]
        exact fun hc => h hc.symm
      have hid : ¬id = id' := fun hc => h hc.symm
      simp [hrow, hne, ih, hid]
    · by_cases hrow' : row.1 = id'
      · simp [hrow, hrow', h]
      · simp [hrow, hrow', ih]

/-- C8: the database backend's `swap_assets` is atomic.  If any step fails
(identifier decode, either row read — updates and commit are single
SQLite-transaction statements), the stored database is unchanged; on
success the two rows' contents are exchanged completely and every other
row keeps its content. -/
theorem swap_assets_atomic (db : Db) (asset_a asset_b : AssetInfo) :
    (∀ e, (swap_assets (some db) asset_a asset_b).2 = Except.error e →
      (swap_assets (some db) asset_a asset_b).1 = some db) ∧
    (∀ id_a id_b content_a content_b,
      hex_decode asset_a.name = some id_a →
      hex_decode asset_b.name = some id_b →
      db_query db id_a = some content_a →
      db_query db id_b = some content_b →
      swap_assets (some db) asset_a asset_b =
        (some (db_update (db_update db id_a content_b) id_b content_a),
          Except.ok ()) ∧
      db_query (db_update (db_update db id_a content_b) id_b content_a)
          id_b = some content_a ∧
      (id_a ≠ id_b →
        db_query (db_update (db_update db id_a content_b) id_b content_a)
            id_a = some content_b) ∧
      (∀ id, id ≠ id_a → id ≠ id_b →
        db_query (db_update (db_update db id_a content_b) id_b content_a)
            id = db_query db id)) := by
  constructor
  · intro e he
    simp only [swap_assets] at he ⊢
    cases hda : hex_decode asset_a.name with
    | none => simp [hda]
    | some id_a =>
      simp only [hda] at he ⊢
      cases hdb : hex_decode asset_b.name with
      | none => simp [hdb]
      | some id_b =>
        simp only [hdb] at he ⊢
        cases hqa : db_query db id_a with
        | none => simp [hqa]
        | some content_a =>
          simp only [hqa] at he ⊢
          cases hqb : db_query db id_b with
          | none => simp [hqb]
          | some content_b =>
            simp only [hqb] at he
            cases he
  · intro id_a id_b content_a content_b hda hdb hqa hqb
    refine ⟨?_, ?_, ?_, ?_⟩
    · simp only [swap_assets, hda, hdb, hqa, hqb]
    · rw [db_query_update_self]
      by_cases hab : id_b = id_a
      · rw [hab, db_query_update_self, hqa]
        rfl
      · rw [db_query_update_other db id_a id_b content_b hab, hqb]
        rfl
    · intro hne
      rw [db_query_update_other _ id_b id_a content_a
        (fun hc => hne hc), db_query_update_self, hqa]
      rfl
    · intro id hia hib
      rw [db_query_update_other _ id_b id content_a hib,
        db_query_update_other _ id_a id content_b hia]

/-- Witness for `swap_assets_atomic`: swapping the two rows of `db0`
exchanges their contents. -/
theorem swap_assets_atomic_witness :
    swap_assets (some db0) dbAssetA dbAssetB =
      (some (db_update (db_update db0 [171] [3]) [205] [1, 2]),
        Except.ok ()) ∧
    db_query (db_update (db_update db0 [171] [3]) [205] [1, 2]) [205] =
      some [1, 2] ∧
    db_query (db_update (db_update db0 [171] [3]) [205] [1, 2]) [171] =
      some [3] := by
  have h := (swap_assets_atomic db0 dbAssetA dbAssetB).2 [171] [205]
    [1, 2] [3] (by decide) (by decide) (by decide) (by decide)
  exact ⟨h.1, h.2.1, h.2.2.1 (by decide)⟩

end RoExtract
